import Mathlib

/-!
Verification development for the KITTI training-sample pipeline of
`smoke/data/datasets/kitti.py` (class `KITTIDataset`).

The embedding models the train-mode path of `KITTIDataset.__getitem__` and
`KITTIDataset.load_annotations`.  Python floats are modelled as rationals,
numpy 3x4 / 4x4 matrices as row-major lists of rationals, and the random
draws consumed by the augmentation code as explicit inputs (one field per
`random.*` call, in program order).  The projection helpers imported from
`smoke.modeling` (`encode_label`, `affine_transform`, `get_transfrom_matrix`,
`gaussian_radius`, `draw_umich_gaussian`) are not part of the sources under
verification; the per-object projected keypoint they produce is therefore a
function parameter `proj` of the assembler, and the image raster (which only
those helpers touch) is modelled by its size.
-/

namespace SMOKE

/-- Python exception classes that the embedded code can raise.  `ioError`
models `IOError`/`OSError` from a failed `open`, `valueError` models
`ValueError` from `float(...)` on malformed text and from `np.reshape` on a
wrong element count, `unboundLocalError` models reading a local variable that
was never assigned, and `indexError` models an out-of-bounds numpy write.
`parseError` is listed only because the specification names such a class;
nothing in the embedded code ever raises it. -/
inductive PyErr
  | ioError
  | valueError
  | unboundLocalError
  | indexError
  | parseError
  deriving DecidableEq, Repr

instance {ε α : Type} [DecidableEq ε] [DecidableEq α] : DecidableEq (Except ε α) := fun x y =>
  match x, y with
  | .ok a, .ok b => if h : a = b then .isTrue (by simp [h]) else .isFalse (by simp [h])
  | .error a, .error b => if h : a = b then .isTrue (by simp [h]) else .isFalse (by simp [h])
  | .ok _, .error _ => .isFalse (by simp)
  | .error _, .ok _ => .isFalse (by simp)

/-- A numeric text field of a KITTI label or calibration row.  `num q` is
well-formed text denoting the rational `q`; `bad` is malformed numeric text.
Python's `float` builtin raises `ValueError` on malformed text. -/
inductive NumTok
  | num (q : ℚ)
  | bad
  deriving DecidableEq, Repr

/-- `float(...)` applied to one field. -/
def pyFloat : NumTok → Except PyErr ℚ
  | .num q => .ok q
  | .bad => .error .valueError

/-- A 3x4 calibration matrix, row-major (numpy `reshape(3, 4)` of the flat
12-value list).  Entry (r, c) sits at index `4 * r + c`. -/
abbrev Mat34 := List ℚ

/-- Entry (0, 2) of a row-major 3x4 matrix: the principal-point column
`P[0, 2]`. -/
def entry02 (P : Mat34) : ℚ := P.getD 2 0

/-- The `TYPE_ID_CONVERSION` table of `kitti.py`.  The code only looks up
class names that are in the configured detectable classes, which are drawn
from this table, so the default branch is never reached there. -/
def TYPE_ID_CONVERSION : String → ℕ
  | "Car" => 0
  | "Cyclist" => 1
  | "Pedestrian" => 2
  | _ => 0

/-- One parsed annotation, the dictionary built in `load_annotations`. -/
structure Ann where
  cls : String
  label : ℕ
  truncation : ℚ
  occlusion : ℚ
  alpha : ℚ
  dimensions : ℚ × ℚ × ℚ
  locations : ℚ × ℚ × ℚ
  rotY : ℚ
  deriving DecidableEq, Repr

/-- One row of a KITTI label file, with the `fieldnames` of
`load_annotations`; the class name is `typ` and every numeric field is raw
text (`NumTok`). -/
structure LabelRow where
  typ : String
  truncated : NumTok
  occluded : NumTok
  alpha : NumTok
  xmin : NumTok
  ymin : NumTok
  xmax : NumTok
  ymax : NumTok
  dh : NumTok
  dw : NumTok
  dl : NumTok
  lx : NumTok
  ly : NumTok
  lz : NumTok
  ry : NumTok
  deriving DecidableEq, Repr

/-- One row of a KITTI calibration file: the leading tag token (`row[0]`,
e.g. "P2:") and the remaining tokens (`row[1:]`). -/
structure CalibRow where
  tag : String
  vals : List NumTok
  deriving DecidableEq, Repr

/-- Parse one label row, as the dictionary literal in `load_annotations`
does: rows whose class is not among the detectable classes are skipped
(`none`), and the `float` conversions run left to right, the first malformed
field raising `ValueError`.  Note the source never converts the 2D-box
fields `xmin ... ymax`. -/
def parseAnnRow (classes : List String) (r : LabelRow) : Except PyErr (Option Ann) :=
  if r.typ ∈ classes then
    match pyFloat r.truncated, pyFloat r.occluded, pyFloat r.alpha,
        pyFloat r.dl, pyFloat r.dh, pyFloat r.dw,
        pyFloat r.lx, pyFloat r.ly, pyFloat r.lz, pyFloat r.ry with
    | .ok tr, .ok oc, .ok al, .ok dl, .ok dh, .ok dw, .ok lx, .ok ly, .ok lz, .ok ry =>
        .ok (some { cls := r.typ, label := TYPE_ID_CONVERSION r.typ, truncation := tr,
                    occlusion := oc, alpha := al, dimensions := (dl, dh, dw),
                    locations := (lx, ly, lz), rotY := ry })
    | .error e, _, _, _, _, _, _, _, _, _ => .error e
    | _, .error e, _, _, _, _, _, _, _, _ => .error e
    | _, _, .error e, _, _, _, _, _, _, _ => .error e
    | _, _, _, .error e, _, _, _, _, _, _ => .error e
    | _, _, _, _, .error e, _, _, _, _, _ => .error e
    | _, _, _, _, _, .error e, _, _, _, _ => .error e
    | _, _, _, _, _, _, .error e, _, _, _ => .error e
    | _, _, _, _, _, _, _, .error e, _, _ => .error e
    | _, _, _, _, _, _, _, _, .error e, _ => .error e
    | _, _, _, _, _, _, _, _, _, .error e => .error e
  else .ok none

/-- The row loop of the label-file reader. -/
def parseAnns (classes : List String) : List LabelRow → Except PyErr (List Ann)
  | [] => .ok []
  | r :: rest =>
    match parseAnnRow classes r with
    | .error e => .error e
    | .ok a? =>
      match parseAnns classes rest with
      | .error e => .error e
      | .ok tl =>
        .ok (match a? with
             | some a => a :: tl
             | none => tl)

/-- The list comprehension `[float(i) for i in row[1:]]`. -/
def parseFloats : List NumTok → Except PyErr (List ℚ)
  | [] => .ok []
  | t :: rest =>
    match pyFloat t with
    | .error e => .error e
    | .ok q =>
      match parseFloats rest with
      | .error e => .error e
      | .ok qs => .ok (q :: qs)

/-- `np.array(...).reshape(3, 4)`: a wrong element count raises
`ValueError`; otherwise the row-major flat list is the matrix. -/
def reshape34 (l : List ℚ) : Except PyErr Mat34 :=
  if l.length = 12 then .ok l else .error .valueError

/-- The calibration row loop: a "P2:" row assigns `P2` and continues, a
"P3:" row assigns `P3` and breaks, every other row is skipped. -/
def scanCalib : List CalibRow → Option Mat34 → Option Mat34 →
    Except PyErr (Option Mat34 × Option Mat34)
  | [], p2, p3 => .ok (p2, p3)
  | r :: rest, p2, p3 =>
    if r.tag = "P2:" then
      match parseFloats r.vals with
      | .error e => .error e
      | .ok qs =>
        match reshape34 qs with
        | .error e => .error e
        | .ok m => scanCalib rest (some m) p3
    else if r.tag = "P3:" then
      match parseFloats r.vals with
      | .error e => .error e
      | .ok qs =>
        match reshape34 qs with
        | .error e => .error e
        | .ok m => .ok (p2, some m)
    else scanCalib rest p2 p3

/-- `KITTIDataset.load_annotations`.  A file that cannot be opened is the
`none` argument (Python `open` raises `IOError`).  In train mode the label
file is read first; the calibration file is always read.  Returning `P2`
or `P3` that was never assigned raises `UnboundLocalError`. -/
def load_annotations (isTrain : Bool) (classes : List String)
    (labelFile : Option (List LabelRow)) (calibFile : Option (List CalibRow)) :
    Except PyErr (List Ann × Mat34 × Mat34) :=
  match (if isTrain then
           match labelFile with
           | none => Except.error PyErr.ioError
           | some rows => parseAnns classes rows
         else Except.ok []) with
  | .error e => .error e
  | .ok anns =>
    match calibFile with
    | none => .error .ioError
    | some rows =>
      match scanCalib rows none none with
      | .error e => .error e
      | .ok (some p2, some p3) => .ok (anns, p2, p3)
      | .ok _ => .error .unboundLocalError

/-! ## The train-mode `__getitem__` pipeline

All `random.*` draws are explicit inputs (`Draws`), in source order.  The
configuration values are the `*_TRAIN` ones: the whole embedding is the
`is_train = True` path, so every `self.is_train` conjunct of the source is
`True` here. -/

/-- One loaded frame: the annotation list and the two camera matrices
returned by `load_annotations`, together with the image size `img.size`
(width, height) of that frame. -/
structure Sample where
  anns : List Ann
  P2 : Mat34
  P3 : Mat34
  width : ℚ
  height : ℚ
  deriving Repr

/-- Configuration fields of `KITTIDataset` used by `__getitem__`. -/
structure Config where
  rightProb : ℚ
  flipProb : ℚ
  augProb : ℚ
  mosaicProb : ℚ
  outW : ℚ
  outH : ℚ
  maxObjs : ℕ
  classes : List String
  deriving Repr

/-- The random draws of one `__getitem__` call, in the order the source
makes them.  `rMosaic` is the fresh draw the specification posits for the
mosaic decision; the source never makes that draw (line 130 tests
`0 < self.mosaic_prob` instead), so no definition below reads it.
`mosaicIdxs` is the stream of `random.choice(range(num_samples))` partner
indices available to the call; the source consumes at most the first. -/
structure Draws where
  rRight : ℚ
  rFlip : ℚ
  rAffine : ℚ
  shiftX : ℚ
  shiftY : ℚ
  scaleC : ℚ
  rMosaic : ℚ
  mosaicIdxs : List ℕ
  leftRatio : ℚ
  deriving Repr

/-- `use_left`: `False` exactly when the right-view draw succeeds. -/
def useLeftOf (cfg : Config) (d : Draws) : Bool := !(decide (d.rRight < cfg.rightProb))

/-- The active matrix before flip: `P2` on the left view, else `P3`. -/
def primaryP (cfg : Config) (data : ℕ → Sample) (idx : ℕ) (d : Draws) : Mat34 :=
  if useLeftOf cfg d then (data idx).P2 else (data idx).P3

/-- `flipped`: the flip draw succeeds and the left view is active. -/
def flippedOf (cfg : Config) (d : Draws) : Bool :=
  decide (d.rFlip < cfg.flipProb) && useLeftOf cfg d

/-- `affine`: the shift/scale jitter draw succeeds. -/
def affineOf (cfg : Config) (d : Draws) : Bool := decide (d.rAffine < cfg.augProb)

/-- The mirrored coordinate `width - c - 1` used for both the virtual
center and the principal point on flip. -/
def flipCoord (w c : ℚ) : ℚ := w - c - 1

/-- `P[0, 2] = size[0] - P[0, 2] - 1`: mirror the principal-point entry of
the row-major 3x4 matrix (flat index 2). -/
def flipP (w : ℚ) (P : Mat34) : Mat34 := P.set 2 (flipCoord w (entry02 P))

/-- The active matrix after the optional flip. -/
def activePOf (cfg : Config) (data : ℕ → Sample) (idx : ℕ) (d : Draws) : Mat34 :=
  if flippedOf cfg d then flipP (data idx).width (primaryP cfg data idx d)
  else primaryP cfg data idx d

/-- The virtual center before any augmentation: `[w / 2, h / 2]`. -/
def center0Of (data : ℕ → Sample) (idx : ℕ) : ℚ × ℚ :=
  ((data idx).width / 2, (data idx).height / 2)

/-- The virtual center after the optional flip:
`center[0] = size[0] - center[0] - 1`. -/
def centerAfterFlipOf (cfg : Config) (data : ℕ → Sample) (idx : ℕ) (d : Draws) : ℚ × ℚ :=
  if flippedOf cfg d then
    (flipCoord (data idx).width (center0Of data idx).1, (center0Of data idx).2)
  else center0Of data idx

/-- The virtual center after the optional shift jitter. -/
def centerJitteredOf (cfg : Config) (data : ℕ → Sample) (idx : ℕ) (d : Draws) : ℚ × ℚ :=
  if affineOf cfg d then
    ((centerAfterFlipOf cfg data idx d).1 + (data idx).width * d.shiftX,
     (centerAfterFlipOf cfg data idx d).2 + (data idx).height * d.shiftY)
  else centerAfterFlipOf cfg data idx d

/-- The virtual size after the optional scale jitter. -/
def sizeJitteredOf (cfg : Config) (data : ℕ → Sample) (idx : ℕ) (d : Draws) : ℚ × ℚ :=
  if affineOf cfg d then ((data idx).width * d.scaleC, (data idx).height * d.scaleC)
  else ((data idx).width, (data idx).height)

/-- Line 130 of the source: the mosaic branch is entered when the
configured probability is positive and neither jitter nor flip was applied.
No random draw is compared against `mosaicProb`. -/
def mosaicAttemptedOf (cfg : Config) (d : Draws) : Bool :=
  decide (0 < cfg.mosaicProb) && !affineOf cfg d && !flippedOf cfg d

/-- The partner index drawn inside the mosaic branch
(`random.choice(range(self.num_samples))`): the first index of the stream. -/
def partnerIdxOf (d : Draws) : ℕ := d.mosaicIdxs.getD 0 0

/-- The partner's calibration matrix: `P2` on the left view, else `P3`. -/
def mosaicPOf (cfg : Config) (data : ℕ → Sample) (d : Draws) : Mat34 :=
  if useLeftOf cfg d then (data (partnerIdxOf d)).P2 else (data (partnerIdxOf d)).P3

/-- `mosaic_img.size == img.size`: the partner's resolution matches the
primary frame's exactly. -/
def sizeMatchOf (data : ℕ → Sample) (idx : ℕ) (d : Draws) : Bool :=
  decide ((data (partnerIdxOf d)).width = (data idx).width) &&
    decide ((data (partnerIdxOf d)).height = (data idx).height)

/-- The sample is mosaic-composed: the branch was entered and the single
fetched partner matches in resolution.  On a mismatch the source simply
falls through (no retry, no error). -/
def composedOf (cfg : Config) (data : ℕ → Sample) (idx : ℕ) (d : Draws) : Bool :=
  mosaicAttemptedOf cfg d && sizeMatchOf data idx d

/-- A column/row range of the output grid, `[x0, x1, y0, y1]` in the
source's region lists. -/
structure Region where
  x0 : ℚ
  x1 : ℚ
  y0 : ℚ
  y1 : ℚ
  deriving DecidableEq, Repr

/-- `[0, output_width, 0, output_height]`: the whole output grid. -/
def fullRegion (cfg : Config) : Region := ⟨0, cfg.outW, 0, cfg.outH⟩

/-- `[0, left_ratio * output_width, 0, output_height]`. -/
def leftRegion (cfg : Config) (d : Draws) : Region :=
  ⟨0, d.leftRatio * cfg.outW, 0, cfg.outH⟩

/-- `[left_ratio * output_width, output_width, 0, output_height]`. -/
def rightRegion (cfg : Config) (d : Draws) : Region :=
  ⟨d.leftRatio * cfg.outW, cfg.outW, 0, cfg.outH⟩

/-- The per-source triples `(anns_list[i], region_list[i], P_list[i])` the
target loop iterates over.  `P_list[0]` aliases the numpy array that the
flip mutates in place, hence `activePOf` there. -/
def srcsOf (cfg : Config) (data : ℕ → Sample) (idx : ℕ) (d : Draws) :
    List (List Ann × Region × Mat34) :=
  if composedOf cfg data idx d then
    [((data idx).anns, leftRegion cfg d, activePOf cfg data idx d),
     ((data (partnerIdxOf d)).anns, rightRegion cfg d, mosaicPOf cfg data d)]
  else [((data idx).anns, fullRegion cfg, activePOf cfg data idx d)]

/-- `P_list` itself; its last entry is what the variable `P` holds after
the target loop finishes. -/
def pListOf (cfg : Config) (data : ℕ → Sample) (idx : ℕ) (d : Draws) : List Mat34 :=
  if composedOf cfg data idx d then
    [activePOf cfg data idx d, mosaicPOf cfg data d]
  else [activePOf cfg data idx d]

/-- `np.concatenate((P, np.ones((1, 4)))); P[3, :3] = 0`: extend the 3x4
matrix with the homogeneous row `[0, 0, 0, 1]` (row-major). -/
def extendP (P : Mat34) : List ℚ := P ++ [0, 0, 0, 1]

/-! ## The target-assembly loop (lines 192-253)

The per-object projected keypoint — `affine_transform(point, trans_mat)` for
the `point` of `encode_label(P, rot_y, dimensions, locations)` — is computed
by helpers outside the sources under verification, so it is the function
parameter `proj` below, mapping the active matrix, the (possibly mirrored)
rotation, the dimensions and the (possibly mirrored) locations to the
output-grid keypoint.  Every theorem about the loop holds for all `proj`. -/

/-- The keypoint projection supplied by `encode_label`/`affine_transform`:
arguments are `P`, `rot_y`, `dimensions`, `locations`. -/
abbrev Proj := Mat34 → ℚ → (ℚ × ℚ × ℚ) → (ℚ × ℚ × ℚ) → ℚ × ℚ

/-- `locs[0] *= -1` under flip. -/
def flipLocs (flipped : Bool) (a : Ann) : ℚ × ℚ × ℚ :=
  if flipped then (-a.locations.1, a.locations.2.1, a.locations.2.2) else a.locations

/-- `rot_y *= -1` under flip. -/
def flipRotY (flipped : Bool) (a : Ann) : ℚ :=
  if flipped then -a.rotY else a.rotY

/-- The output-grid keypoint of one annotation. -/
def objPoint (proj : Proj) (flipped : Bool) (P : Mat34) (a : Ann) : ℚ × ℚ :=
  proj P (flipRotY flipped a) a.dimensions (flipLocs flipped a)

/-- Line 232: `(region[0] < point[0] < region[1]) and
(region[2] < point[1] < region[3])` — strict on both axes. -/
def acceptB (r : Region) (p : ℚ × ℚ) : Bool :=
  decide (r.x0 < p.1) && decide (p.1 < r.x1) && decide (r.y0 < p.2) && decide (p.2 < r.y1)

/-- The per-slot data written at lines 241-253.  The fields derived purely
by the external encoder (`box3d`, the clipped 2D box, the Gaussian radius)
are determined by `proj`-like helpers outside the sources and carry no
claim, so the slot keeps the fields the claims are about. -/
structure Payload where
  cls : ℕ
  point : ℚ × ℚ
  dims : ℚ × ℚ × ℚ
  locs : ℚ × ℚ × ℚ
  rotY : ℚ
  regMask : ℕ
  flipMask : ℕ
  deriving DecidableEq, Repr

/-- The all-zero slot content of the freshly allocated numpy buffers. -/
def zeroPayload : Payload :=
  { cls := 0, point := (0, 0), dims := (0, 0, 0), locs := (0, 0, 0), rotY := 0,
    regMask := 0, flipMask := 0 }

/-- One buffer write event: which source image, which slot, what data.
The source writes slot `i` where `i` is the object's position in its
source's annotation list (the inner `enumerate`). -/
structure Write where
  src : ℕ
  slot : ℕ
  pay : Payload
  deriving DecidableEq, Repr

/-- The slot content built at lines 241-253:
`reg_mask[i] = 1 if not affine else 0`,
`flip_mask[i] = 1 if not affine and flipped else 0`. -/
def mkPayload (flipped affine : Bool) (p : ℚ × ℚ) (a : Ann) : Payload :=
  { cls := a.label, point := p, dims := a.dimensions, locs := flipLocs flipped a,
    rotY := flipRotY flipped a,
    regMask := if !affine then 1 else 0,
    flipMask := if !affine && flipped then 1 else 0 }

/-- The body of the inner object loop for one annotation `a` sitting at
position `slot` of source `srcIdx`: if the keypoint is strictly inside the
source's region the slot is written (a numpy write out of the buffer range
raises `IndexError`); otherwise nothing happens.  The state is the buffer
array plus the trace of write events. -/
def encodeOne (proj : Proj) (flipped affine : Bool) (P : Mat34) (region : Region)
    (srcIdx slot : ℕ) (a : Ann) (st : List Payload × List Write) :
    Except PyErr (List Payload × List Write) :=
  let p := objPoint proj flipped P a
  if acceptB region p then
    if slot < st.1.length then
      let pay := mkPayload flipped affine p a
      .ok (st.1.set slot pay, st.2 ++ [⟨srcIdx, slot, pay⟩])
    else .error .indexError
  else .ok st

/-- The inner loop `for i, a in enumerate(anns)`: `slot` is the running
`enumerate` index.  Note it restarts at 0 for every source image because
the source reuses the loop variable `i` of the outer loop. -/
def runAnns (proj : Proj) (flipped affine : Bool) (P : Mat34) (region : Region)
    (srcIdx : ℕ) : ℕ → List Ann → List Payload × List Write →
    Except PyErr (List Payload × List Write)
  | _, [], st => .ok st
  | slot, a :: rest, st =>
    match encodeOne proj flipped affine P region srcIdx slot a st with
    | .error e => .error e
    | .ok st2 => runAnns proj flipped affine P region srcIdx (slot + 1) rest st2

/-- The outer loop `for i in range(len(anns_list))` over the per-source
triples; each source runs the inner loop with its own region and matrix and
with the `enumerate` index starting again at 0. -/
def runSrcs (proj : Proj) (flipped affine : Bool) :
    ℕ → List (List Ann × Region × Mat34) → List Payload × List Write →
    Except PyErr (List Payload × List Write)
  | _, [], st => .ok st
  | s, src :: rest, st =>
    match runAnns proj flipped affine src.2.2 src.2.1 s 0 src.1 st with
    | .error e => .error e
    | .ok st2 => runSrcs proj flipped affine (s + 1) rest st2

/-- The train-mode target: the slot buffers, the trace of slot writes, and
the extended 4x4 matrix exposed as the "P" field. -/
structure TrainTarget where
  buffers : List Payload
  trace : List Write
  outP : List ℚ
  deriving DecidableEq, Repr

/-- The train-mode path of `KITTIDataset.__getitem__` from buffer
allocation onward: run the nested loop over the composed sources starting
from all-zero buffers of capacity `max_objs`, then expose the extended
last entry of `P_list` (the variable `P` after the loop) as "P". -/
def getitemTrain (cfg : Config) (data : ℕ → Sample) (idx : ℕ) (d : Draws)
    (proj : Proj) : Except PyErr TrainTarget :=
  match runSrcs proj (flippedOf cfg d) (affineOf cfg d) 0 (srcsOf cfg data idx d)
      (List.replicate cfg.maxObjs zeroPayload, []) with
  | .error e => .error e
  | .ok st =>
    .ok { buffers := st.1, trace := st.2,
          outP := extendP ((pListOf cfg data idx d).getLastD (activePOf cfg data idx d)) }

/-- Whether the trace holds a write for object `j` of source `s`. -/
def written (tr : List Write) (s j : ℕ) : Bool :=
  tr.any (fun w => w.src == s && w.slot == j)

/-- Whether object `j` of an annotation list passes the acceptance test. -/
def writtenInAnns (proj : Proj) (f : Bool) (P : Mat34) (region : Region)
    (anns : List Ann) (j : ℕ) : Bool :=
  match anns[j]? with
  | some a => acceptB region (objPoint proj f P a)
  | none => false

/-- Whether object `j` of source `k` passes its source's acceptance test. -/
def srcWritten (proj : Proj) (f : Bool) (srcs : List (List Ann × Region × Mat34))
    (k j : ℕ) : Bool :=
  match srcs[k]? with
  | some src => writtenInAnns proj f src.2.2 src.2.1 src.1 j
  | none => false

/-! ## Concrete instances used by counterexamples and witnesses

`projW` is one admissible keypoint projection (the theorems about the loop
hold for every `proj`; concrete runs need a fixed one): it reads the
keypoint off the object's x/y location, making acceptance easy to stage. -/

/-- A concrete keypoint projection for concrete runs. -/
def projW : Proj := fun _ _ _ locs => (locs.1, locs.2.1)

/-- A "Car" annotation at location (x, y, z). -/
def annOf (x y z : ℚ) : Ann :=
  { cls := "Car", label := 0, truncation := 0, occlusion := 0, alpha := 0,
    dimensions := (4, 1, 2), locations := (x, y, z), rotY := 0 }

/-- A concrete 3x4 matrix (all ones). -/
def pG : Mat34 := List.replicate 12 (1 : ℚ)

/-- A concrete 3x4 matrix (all twos), distinguishable from `pG`. -/
def pB : Mat34 := List.replicate 12 (2 : ℚ)

/-- Config of the mosaic slot-reuse run: mosaic always eligible,
capacity 2, output grid 10 x 4. -/
def cfg1 : Config :=
  { rightProb := 0, flipProb := 0, augProb := 0, mosaicProb := 1,
    outW := 10, outH := 4, maxObjs := 2, classes := ["Car"] }

/-- Dataset of the mosaic slot-reuse run: frame 0 has one object whose
keypoint (2, 2) falls in the left half, every other frame one object whose
keypoint (7, 2) falls in the right half; all frames are 20 x 8. -/
def data1 : ℕ → Sample := fun n =>
  if n = 0 then { anns := [annOf 2 2 0], P2 := pG, P3 := pG, width := 20, height := 8 }
  else { anns := [annOf 7 2 0], P2 := pB, P3 := pG, width := 20, height := 8 }

/-- Draws of the mosaic slot-reuse run: no right view, no flip, no jitter,
partner index 1, split fraction 1/2. -/
def d1 : Draws :=
  { rRight := 1, rFlip := 1, rAffine := 1, shiftX := 0, shiftY := 0, scaleC := 1,
    rMosaic := 0, mosaicIdxs := [1], leftRatio := 1/2 }

/-- Config of the capacity-overflow run: capacity 1 and no mosaic. -/
def cfg2 : Config :=
  { rightProb := 0, flipProb := 0, augProb := 0, mosaicProb := 0,
    outW := 10, outH := 4, maxObjs := 1, classes := ["Car"] }

/-- Dataset of the capacity-overflow run: one frame with two objects whose
keypoints (2, 2) and (3, 2) are both strictly inside the full grid. -/
def data2 : ℕ → Sample := fun _ =>
  { anns := [annOf 2 2 0, annOf 3 2 0], P2 := pG, P3 := pG, width := 20, height := 8 }

/-- Config of the mosaic-probability run: the configured probability is
1/2, neither flip nor jitter can fire. -/
def cfg3 : Config :=
  { rightProb := 0, flipProb := 0, augProb := 0, mosaicProb := 1/2,
    outW := 10, outH := 4, maxObjs := 30, classes := ["Car"] }

/-- Draws of the mosaic-probability run: the hypothetical mosaic draw is
3/4, which fails the test `3/4 < 1/2` that the specification prescribes. -/
def d3 : Draws :=
  { rRight := 1, rFlip := 1, rAffine := 1, shiftX := 0, shiftY := 0, scaleC := 1,
    rMosaic := 3/4, mosaicIdxs := [1], leftRatio := 1/2 }

/-- Config of the mismatched-partner run. -/
def cfg4 : Config :=
  { rightProb := 0, flipProb := 0, augProb := 0, mosaicProb := 1,
    outW := 10, outH := 4, maxObjs := 30, classes := ["Car"] }

/-- Dataset of the mismatched-partner run: frame 0 is 20 x 8, frame 1 is
16 x 8 (mismatched), frame 2 is 20 x 8 (matching). -/
def data4 : ℕ → Sample := fun n =>
  if n = 0 then { anns := [annOf 2 2 0], P2 := pG, P3 := pG, width := 20, height := 8 }
  else if n = 1 then { anns := [annOf 7 2 0], P2 := pB, P3 := pG, width := 16, height := 8 }
  else { anns := [annOf 7 2 0], P2 := pB, P3 := pG, width := 20, height := 8 }

/-- Draws of the mismatched-partner run: the consumed partner index is 1
(mismatched); index 2 (matching) is next in the stream but never used. -/
def d4 : Draws :=
  { rRight := 1, rFlip := 1, rAffine := 1, shiftX := 0, shiftY := 0, scaleC := 1,
    rMosaic := 0, mosaicIdxs := [1, 2], leftRatio := 1/2 }

/-- Config of the plain successful run used by several witnesses. -/
def cfgG : Config :=
  { rightProb := 0, flipProb := 0, augProb := 0, mosaicProb := 0,
    outW := 10, outH := 4, maxObjs := 2, classes := ["Car"] }

/-- Dataset of the plain successful run: one frame, one accepted object. -/
def dataG : ℕ → Sample := fun _ =>
  { anns := [annOf 2 2 0], P2 := pG, P3 := pB, width := 20, height := 8 }

/-- Draws of the plain successful run: nothing fires. -/
def dG : Draws :=
  { rRight := 1, rFlip := 1, rAffine := 1, shiftX := 0, shiftY := 0, scaleC := 1,
    rMosaic := 1, mosaicIdxs := [0], leftRatio := 1/2 }

/-- The slot content the plain successful run writes. -/
def payG : Payload :=
  { cls := 0, point := (2, 2), dims := (4, 1, 2), locs := (2, 2, 0), rotY := 0,
    regMask := 1, flipMask := 0 }

/-- The target the plain successful run produces. -/
def tG : TrainTarget :=
  { buffers := [payG, zeroPayload], trace := [⟨0, 0, payG⟩], outP := extendP pG }

/-- Config of the flipped run: flip always fires, on the left view. -/
def cfgF : Config :=
  { rightProb := 0, flipProb := 1, augProb := 0, mosaicProb := 0,
    outW := 10, outH := 4, maxObjs := 2, classes := ["Car"] }

/-- Dataset of the flipped run. -/
def dataF : ℕ → Sample := fun _ =>
  { anns := [annOf 2 2 0], P2 := pG, P3 := pB, width := 20, height := 8 }

/-- Draws of the flipped run: the flip draw succeeds. -/
def dF : Draws :=
  { rRight := 1, rFlip := 0, rAffine := 1, shiftX := 0, shiftY := 0, scaleC := 1,
    rMosaic := 1, mosaicIdxs := [0], leftRatio := 1/2 }

/-- A label row of class "Car" whose `truncated` field is malformed text. -/
def badCarRow : LabelRow :=
  { typ := "Car", truncated := .bad, occluded := .num 0, alpha := .num 0,
    xmin := .num 0, ymin := .num 0, xmax := .num 0, ymax := .num 0,
    dh := .num 1, dw := .num 1, dl := .num 1,
    lx := .num 0, ly := .num 0, lz := .num 0, ry := .num 0 }

/-! ## Helper lemmas about the assembly loop -/

theorem writtenInAnns_nil (proj : Proj) (f : Bool) (P : Mat34) (region : Region) (j : ℕ) :
    writtenInAnns proj f P region [] j = false := by
  simp [writtenInAnns]

theorem writtenInAnns_cons_zero (proj : Proj) (f : Bool) (P : Mat34) (region : Region)
    (a : Ann) (rest : List Ann) :
    writtenInAnns proj f P region (a :: rest) 0 = acceptB region (objPoint proj f P a) := by
  simp [writtenInAnns]

theorem writtenInAnns_cons_succ (proj : Proj) (f : Bool) (P : Mat34) (region : Region)
    (a : Ann) (rest : List Ann) (k : ℕ) :
    writtenInAnns proj f P region (a :: rest) (k + 1) =
      writtenInAnns proj f P region rest k := by
  simp [writtenInAnns]

theorem srcWritten_cons_zero (proj : Proj) (f : Bool)
    (src : List Ann × Region × Mat34) (rest : List (List Ann × Region × Mat34)) (j : ℕ) :
    srcWritten proj f (src :: rest) 0 j = writtenInAnns proj f src.2.2 src.2.1 src.1 j := by
  simp [srcWritten]

theorem srcWritten_cons_succ (proj : Proj) (f : Bool)
    (src : List Ann × Region × Mat34) (rest : List (List Ann × Region × Mat34)) (k j : ℕ) :
    srcWritten proj f (src :: rest) (k + 1) j = srcWritten proj f rest k j := by
  simp [srcWritten]

theorem encodeOne_rejected (proj : Proj) (f af : Bool) (P : Mat34) (region : Region)
    (s slot : ℕ) (a : Ann) (st : List Payload × List Write)
    (hA : acceptB region (objPoint proj f P a) = false) :
    encodeOne proj f af P region s slot a st = .ok st := by
  simp [encodeOne, hA]

theorem encodeOne_accepted (proj : Proj) (f af : Bool) (P : Mat34) (region : Region)
    (s slot : ℕ) (a : Ann) (st : List Payload × List Write)
    (hA : acceptB region (objPoint proj f P a) = true) (hlt : slot < st.1.length) :
    encodeOne proj f af P region s slot a st =
      .ok (st.1.set slot (mkPayload f af (objPoint proj f P a) a),
        st.2 ++ [⟨s, slot, mkPayload f af (objPoint proj f P a) a⟩]) := by
  simp [encodeOne, hA, hlt]

theorem encodeOne_overflow (proj : Proj) (f af : Bool) (P : Mat34) (region : Region)
    (s slot : ℕ) (a : Ann) (st : List Payload × List Write)
    (hA : acceptB region (objPoint proj f P a) = true) (hge : ¬ slot < st.1.length) :
    encodeOne proj f af P region s slot a st = .error .indexError := by
  simp [encodeOne, hA, hge]

theorem scanCalib_skip : ∀ (rows : List CalibRow) (p2 p3 : Option Mat34),
    (∀ r ∈ rows, r.tag ≠ "P2:" ∧ r.tag ≠ "P3:") → scanCalib rows p2 p3 = .ok (p2, p3)
  | [], _, _, _ => rfl
  | r :: rest, p2, p3, h => by
    have h1 := h r (List.mem_cons_self r rest)
    simp only [scanCalib, if_neg h1.1, if_neg h1.2]
    exact scanCalib_skip rest p2 p3 (fun x hx => h x (List.mem_cons_of_mem _ hx))

theorem parseFloats_bad : ∀ (toks : List NumTok), NumTok.bad ∈ toks →
    parseFloats toks = .error .valueError
  | [], h => absurd h (List.not_mem_nil _)
  | t :: rest, h => by
    rcases List.mem_cons.mp h with heq | hmem
    · rw [← heq]
      simp [parseFloats, pyFloat]
    · have ih := parseFloats_bad rest hmem
      cases t with
      | bad => simp [parseFloats, pyFloat]
      | num q => simp [parseFloats, pyFloat, ih]

theorem parseAnnRow_bad_trunc (classes : List String) (r : LabelRow)
    (hcls : r.typ ∈ classes) (htr : r.truncated = NumTok.bad) :
    parseAnnRow classes r = .error .valueError := by
  simp [parseAnnRow, hcls, htr, pyFloat]

theorem runAnns_ok_mem (proj : Proj) (f af : Bool) (P : Mat34) (region : Region) (s : ℕ) :
    ∀ (anns : List Ann) (slot : ℕ) (st st2 : List Payload × List Write),
    runAnns proj f af P region s slot anns st = .ok st2 →
      st2.1.length = st.1.length ∧
      ∀ w ∈ st2.2, w ∈ st.2 ∨
        (w.slot < st.1.length ∧
          w.pay.regMask = (if !af then 1 else 0) ∧
          w.pay.flipMask = (if !af && f then 1 else 0)) := by
  intro anns
  induction anns with
  | nil =>
    intro slot st st2 h
    simp only [runAnns] at h
    injection h with h
    subst h
    exact ⟨rfl, fun w hw => Or.inl hw⟩
  | cons a rest ih =>
    intro slot st st2 h
    simp only [runAnns] at h
    rcases hA : acceptB region (objPoint proj f P a) with _ | _
    · rw [encodeOne_rejected proj f af P region s slot a st hA] at h
      exact ih (slot + 1) st st2 h
    · by_cases hlt : slot < st.1.length
      · rw [encodeOne_accepted proj f af P region s slot a st hA hlt] at h
        obtain ⟨hlen, hmem⟩ := ih (slot + 1) _ st2 h
        constructor
        · rw [hlen]; exact List.length_set ..
        · intro w hw
          rcases hmem w hw with hin | hprops
          · rcases List.mem_append.mp hin with hold | hnew
            · exact Or.inl hold
            · rcases List.mem_singleton.mp hnew with rfl
              exact Or.inr ⟨hlt, rfl, rfl⟩
          · refine Or.inr ⟨?_, hprops.2⟩
            have := hprops.1
            rwa [List.length_set] at this
      · rw [encodeOne_overflow proj f af P region s slot a st hA hlt] at h
        exact absurd h (by simp)

theorem runSrcs_ok_mem (proj : Proj) (f af : Bool) :
    ∀ (srcs : List (List Ann × Region × Mat34)) (s : ℕ)
      (st st2 : List Payload × List Write),
    runSrcs proj f af s srcs st = .ok st2 →
      st2.1.length = st.1.length ∧
      ∀ w ∈ st2.2, w ∈ st.2 ∨
        (w.slot < st.1.length ∧
          w.pay.regMask = (if !af then 1 else 0) ∧
          w.pay.flipMask = (if !af && f then 1 else 0)) := by
  intro srcs
  induction srcs with
  | nil =>
    intro s st st2 h
    simp only [runSrcs] at h
    injection h with h
    subst h
    exact ⟨rfl, fun w hw => Or.inl hw⟩
  | cons src rest ih =>
    intro s st st2 h
    simp only [runSrcs] at h
    rcases hR : runAnns proj f af src.2.2 src.2.1 s 0 src.1 st with e | stM
    · rw [hR] at h; exact absurd h (by simp)
    · rw [hR] at h
      obtain ⟨hlen1, hmem1⟩ := runAnns_ok_mem proj f af src.2.2 src.2.1 s src.1 0 st stM hR
      obtain ⟨hlen2, hmem2⟩ := ih (s + 1) stM st2 h
      refine ⟨hlen2.trans hlen1, fun w hw => ?_⟩
      rcases hmem2 w hw with hin | hprops
      · rcases hmem1 w hin with hold | hprops1
        · exact Or.inl hold
        · exact Or.inr hprops1
      · rw [hlen1] at hprops
        exact Or.inr hprops

theorem written_append_one (tr : List Write) (ws wslot : ℕ) (wpay : Payload) (s2 j2 : ℕ) :
    written (tr ++ [⟨ws, wslot, wpay⟩]) s2 j2 = true ↔
      (written tr s2 j2 = true ∨ (ws = s2 ∧ wslot = j2)) := by
  simp [written, List.any_append]

theorem runAnns_ok_written (proj : Proj) (f af : Bool) (P : Mat34) (region : Region) (s : ℕ) :
    ∀ (anns : List Ann) (slot : ℕ) (st st2 : List Payload × List Write),
    runAnns proj f af P region s slot anns st = .ok st2 → ∀ s2 j2 : ℕ,
    (written st2.2 s2 j2 = true ↔
      (written st.2 s2 j2 = true ∨
        (s = s2 ∧ slot ≤ j2 ∧ writtenInAnns proj f P region anns (j2 - slot) = true))) := by
  intro anns
  induction anns with
  | nil =>
    intro slot st st2 h s2 j2
    simp only [runAnns] at h
    injection h with h
    subst h
    simp [writtenInAnns_nil]
  | cons a rest ih =>
    intro slot st st2 h s2 j2
    simp only [runAnns] at h
    rcases hA : acceptB region (objPoint proj f P a) with _ | _
    · rw [encodeOne_rejected proj f af P region s slot a st hA] at h
      rw [ih (slot + 1) st st2 h s2 j2]
      constructor
      · rintro (hW | ⟨rfl, hle, hwa⟩)
        · exact Or.inl hW
        · refine Or.inr ⟨rfl, by omega, ?_⟩
          have hk : j2 - slot = (j2 - (slot + 1)) + 1 := by omega
          rw [hk, writtenInAnns_cons_succ]
          exact hwa
      · rintro (hW | ⟨rfl, hle, hwa⟩)
        · exact Or.inl hW
        · rcases Nat.eq_or_lt_of_le hle with heq | hlt2
          · exfalso
            rw [← heq, Nat.sub_self, writtenInAnns_cons_zero, hA] at hwa
            exact Bool.false_ne_true hwa
          · refine Or.inr ⟨rfl, by omega, ?_⟩
            have hk : j2 - slot = (j2 - (slot + 1)) + 1 := by omega
            rw [hk, writtenInAnns_cons_succ] at hwa
            exact hwa
    · by_cases hlt : slot < st.1.length
      · rw [encodeOne_accepted proj f af P region s slot a st hA hlt] at h
        rw [ih (slot + 1) _ st2 h s2 j2]
        rw [written_append_one]
        constructor
        · rintro ((hW | ⟨hs, hslot⟩) | ⟨rfl, hle, hwa⟩)
          · exact Or.inl hW
          · refine Or.inr ⟨hs, by omega, ?_⟩
            have hj : j2 - slot = 0 := by omega
            rw [hj, writtenInAnns_cons_zero, hA]
          · refine Or.inr ⟨rfl, by omega, ?_⟩
            have hk : j2 - slot = (j2 - (slot + 1)) + 1 := by omega
            rw [hk, writtenInAnns_cons_succ]
            exact hwa
        · rintro (hW | ⟨rfl, hle, hwa⟩)
          · exact Or.inl (Or.inl hW)
          · rcases Nat.eq_or_lt_of_le hle with heq | hlt2
            · exact Or.inl (Or.inr ⟨rfl, heq⟩)
            · refine Or.inr ⟨rfl, by omega, ?_⟩
              have hk : j2 - slot = (j2 - (slot + 1)) + 1 := by omega
              rw [hk, writtenInAnns_cons_succ] at hwa
              exact hwa
      · rw [encodeOne_overflow proj f af P region s slot a st hA hlt] at h
        exact absurd h (by simp)

theorem runSrcs_ok_written (proj : Proj) (f af : Bool) :
    ∀ (srcs : List (List Ann × Region × Mat34)) (s : ℕ)
      (st st2 : List Payload × List Write),
    runSrcs proj f af s srcs st = .ok st2 → ∀ s2 j2 : ℕ,
    (written st2.2 s2 j2 = true ↔
      (written st.2 s2 j2 = true ∨
        (s ≤ s2 ∧ srcWritten proj f srcs (s2 - s) j2 = true))) := by
  intro srcs
  induction srcs with
  | nil =>
    intro s st st2 h s2 j2
    simp only [runSrcs] at h
    injection h with h
    subst h
    simp [srcWritten]
  | cons src rest ih =>
    intro s st st2 h s2 j2
    simp only [runSrcs] at h
    rcases hR : runAnns proj f af src.2.2 src.2.1 s 0 src.1 st with e | stM
    · rw [hR] at h; exact absurd h (by simp)
    · rw [hR] at h
      rw [ih (s + 1) stM st2 h s2 j2]
      rw [runAnns_ok_written proj f af src.2.2 src.2.1 s src.1 0 st stM hR s2 j2]
      constructor
      · rintro ((hW | ⟨rfl, _, hwa⟩) | ⟨hle, hsw⟩)
        · exact Or.inl hW
        · refine Or.inr ⟨Nat.le_refl _, ?_⟩
          rw [Nat.sub_self, srcWritten_cons_zero]
          rw [Nat.sub_zero] at hwa
          exact hwa
        · refine Or.inr ⟨by omega, ?_⟩
          have hk : s2 - s = (s2 - (s + 1)) + 1 := by omega
          rw [hk, srcWritten_cons_succ]
          exact hsw
      · rintro (hW | ⟨hle, hsw⟩)
        · exact Or.inl (Or.inl hW)
        · rcases Nat.eq_or_lt_of_le hle with heq | hlt2
          · refine Or.inl (Or.inr ⟨heq, Nat.zero_le _, ?_⟩)
            have hz : s2 - s = 0 := by omega
            rw [hz, srcWritten_cons_zero] at hsw
            rw [Nat.sub_zero]
            exact hsw
          · refine Or.inr ⟨by omega, ?_⟩
            have hk : s2 - s = (s2 - (s + 1)) + 1 := by omega
            rw [hk, srcWritten_cons_succ] at hsw
            exact hsw

/-! ## The claims -/

/-- C1: the claim says every accepted object of a mosaic-composed sample
takes the next unused slot, with the slot counter accumulating across both
source images so that no accepted object overwrites another.  The code
violates this: the inner `enumerate` reuses the outer loop variable, so the
slot index restarts at 0 for the mosaic partner.  In this run both accepted
objects (one per source) are written to slot 0 even though slot 1 is free,
and the final buffer holds only the partner's locations (7, 2, 0) — the
primary object's (2, 2, 0) is overwritten. -/
theorem C1_mosaic_slot_reuse :
    (getitemTrain cfg1 data1 0 d1 projW).map
      (fun t => (t.trace.map (fun w => (w.src, w.slot)), t.buffers.map Payload.locs)) =
    .ok ([(0, 0), (1, 0)], [(7, 2, 0), (0, 0, 0)]) := by
  have hsrcs : srcsOf cfg1 data1 0 d1 =
      [([annOf 2 2 0], ⟨0, 5, 0, 4⟩, pG), ([annOf 7 2 0], ⟨5, 10, 0, 4⟩, pB)] := by
    norm_num [srcsOf, composedOf, mosaicAttemptedOf, sizeMatchOf, affineOf, flippedOf,
      useLeftOf, partnerIdxOf, leftRegion, rightRegion, activePOf, primaryP, mosaicPOf,
      cfg1, data1, d1]
  have hpl : pListOf cfg1 data1 0 d1 = [pG, pB] := by
    norm_num [pListOf, composedOf, mosaicAttemptedOf, sizeMatchOf, affineOf, flippedOf,
      useLeftOf, partnerIdxOf, activePOf, primaryP, mosaicPOf, cfg1, data1, d1]
  simp only [getitemTrain, hsrcs, hpl]
  decide

/-- C2 counterexample: with capacity 1 and two accepted objects, the claim
says the excess object is silently dropped with no error; the code instead
raises `IndexError` on the out-of-bounds numpy write. -/
theorem C2_overflow_raises :
    getitemTrain cfg2 data2 0 d1 projW = .error .indexError := by decide

/-- C2 (amended): on every run that returns a target, the buffers have
exactly `max_objects` slots and every write lands in a slot below
`max_objects`, so the number of occupied slots never exceeds capacity;
excess accepted objects do not silently disappear, they abort the sample
with an index error (`C2_overflow_raises`). -/
theorem C2_capacity_bound (cfg : Config) (data : ℕ → Sample) (idx : ℕ) (d : Draws)
    (proj : Proj) (t : TrainTarget) (h : getitemTrain cfg data idx d proj = .ok t) :
    t.buffers.length = cfg.maxObjs ∧ ∀ w ∈ t.trace, w.slot < cfg.maxObjs := by
  unfold getitemTrain at h
  rcases hR : runSrcs proj (flippedOf cfg d) (affineOf cfg d) 0 (srcsOf cfg data idx d)
      (List.replicate cfg.maxObjs zeroPayload, []) with e | st
  · rw [hR] at h; exact absurd h (by simp)
  · rw [hR] at h
    obtain ⟨hlen, hmem⟩ := runSrcs_ok_mem proj (flippedOf cfg d) (affineOf cfg d)
      (srcsOf cfg data idx d) 0 _ st hR
    simp only [List.length_replicate] at hlen hmem
    injection h with h
    subst h
    refine ⟨hlen, fun w hw => ?_⟩
    rcases hmem w hw with hin | hprops
    · exact absurd hin (List.not_mem_nil w)
    · exact hprops.1

/-- C2 witness: the capacity bound evaluated on a concrete successful run. -/
theorem C2_capacity_bound_witness :
    tG.buffers.length = cfgG.maxObjs ∧ ∀ w ∈ tG.trace, w.slot < cfgG.maxObjs :=
  C2_capacity_bound cfgG dataG 0 dG projW tG (by decide)

/-- C3 (amended): mosaic composition is attempted exactly when the
configured probability is positive and neither jitter nor flip was applied
to the sample; the probability's value is never compared against a random
draw (any positive probability behaves like probability 1). -/
theorem C3_gate_no_draw (cfg : Config) (d : Draws) :
    mosaicAttemptedOf cfg d = true ↔
      (0 < cfg.mosaicProb ∧ affineOf cfg d = false ∧ flippedOf cfg d = false) := by
  simp [mosaicAttemptedOf, Bool.and_eq_true, Bool.not_eq_true', decide_eq_true_eq,
    and_assoc]

/-- C3 counterexample: with configured mosaic probability 1/2 and a fresh
draw of 3/4 — which fails the test `draw < probability` the claim
prescribes — the code still attempts mosaic composition. -/
theorem C3_counterexample :
    mosaicAttemptedOf cfg3 d3 = true ∧ ¬(d3.rMosaic < cfg3.mosaicProb) := by
  constructor
  · simp [mosaicAttemptedOf, affineOf, flippedOf, useLeftOf, cfg3, d3]
  · show ¬((3 : ℚ)/4 < 1/2)
    norm_num

/-- C4 (amended): when the single fetched mosaic partner has a mismatched
resolution, composition is skipped for that sample — the source list, the
region list and the matrix list are exactly the non-mosaic ones, and
nothing fails — rather than the fetch being retried with another partner
index. -/
theorem C4_mismatch_skips (cfg : Config) (data : ℕ → Sample) (idx : ℕ) (d : Draws)
    (h : (data (partnerIdxOf d)).width ≠ (data idx).width ∨
         (data (partnerIdxOf d)).height ≠ (data idx).height) :
    composedOf cfg data idx d = false ∧
    srcsOf cfg data idx d = [((data idx).anns, fullRegion cfg, activePOf cfg data idx d)] ∧
    pListOf cfg data idx d = [activePOf cfg data idx d] := by
  have hsz : sizeMatchOf data idx d = false := by
    simp [sizeMatchOf]
    tauto
  have hc : composedOf cfg data idx d = false := by
    simp [composedOf, hsz]
  exact ⟨hc, by simp [srcsOf, hc], by simp [pListOf, hc]⟩

/-- C4 witness: the skip behaviour evaluated on the concrete mismatched
run. -/
theorem C4_mismatch_skips_witness :
    composedOf cfg4 data4 0 d4 = false ∧
    srcsOf cfg4 data4 0 d4 = [((data4 0).anns, fullRegion cfg4, activePOf cfg4 data4 0 d4)] ∧
    pListOf cfg4 data4 0 d4 = [activePOf cfg4 data4 0 d4] :=
  C4_mismatch_skips cfg4 data4 0 d4 (by decide)

/-- C4 counterexample: the mosaic branch is entered, the consumed partner
(index 1) is mismatched, a matching partner (index 2) is next in the random
index stream, yet the sample stays un-composed with a single source — no
retry with a different partner index happens. -/
theorem C4_counterexample :
    mosaicAttemptedOf cfg4 d4 = true ∧
    d4.mosaicIdxs = [1, 2] ∧
    (data4 1).width ≠ (data4 0).width ∧
    (data4 2).width = (data4 0).width ∧ (data4 2).height = (data4 0).height ∧
    composedOf cfg4 data4 0 d4 = false ∧
    (srcsOf cfg4 data4 0 d4).length = 1 := by
  refine ⟨by decide, by decide, by decide, by decide, by decide, by decide, by decide⟩

/-- C5 (amended): the loader fails with `IOError` when the annotation file
(train mode) or the calibration file cannot be opened; with
`UnboundLocalError` — not `ParseError` — when the calibration file lacks
its labeled P2:/P3: rows; and with `ValueError` — not `ParseError` — when a
numeric field of an annotation row or of a calibration row holds malformed
numeric text. -/
theorem C5_loader_error_classes (classes : List String) (lbl : Option (List LabelRow))
    (calib calib2 : Option (List CalibRow)) (rows : List CalibRow) (r : LabelRow)
    (rest : List LabelRow) (toks : List NumTok) (crest : List CalibRow)
    (hrows : ∀ cr ∈ rows, cr.tag ≠ "P2:" ∧ cr.tag ≠ "P3:")
    (hcls : r.typ ∈ classes) (htr : r.truncated = NumTok.bad)
    (hbad : NumTok.bad ∈ toks) :
    load_annotations true classes none calib = .error .ioError ∧
    load_annotations false classes lbl none = .error .ioError ∧
    load_annotations false classes lbl (some rows) = .error .unboundLocalError ∧
    load_annotations true classes (some (r :: rest)) calib2 = .error .valueError ∧
    load_annotations false classes lbl (some (⟨"P2:", toks⟩ :: crest)) = .error .valueError := by
  refine ⟨rfl, rfl, ?_, ?_, ?_⟩
  · simp [load_annotations, scanCalib_skip rows none none hrows]
  · simp [load_annotations, parseAnns, parseAnnRow_bad_trunc classes r hcls htr]
  · simp [load_annotations, scanCalib, parseFloats_bad toks hbad]

/-- C5 counterexample: a calibration file missing its P2:/P3: rows fails
with `UnboundLocalError`, and a malformed numeric annotation field fails
with `ValueError`; neither failure is the `ParseError` the claim names,
and the two failures are not even the same class. -/
theorem C5_counterexample :
    load_annotations false ["Car"] none (some [⟨"P0:", [NumTok.num 1]⟩]) =
      .error .unboundLocalError ∧
    load_annotations true ["Car"] (some [badCarRow])
      (some [⟨"P2:", List.replicate 12 (NumTok.num 1)⟩,
             ⟨"P3:", List.replicate 12 (NumTok.num 1)⟩]) = .error .valueError ∧
    PyErr.unboundLocalError ≠ PyErr.parseError ∧
    PyErr.valueError ≠ PyErr.parseError := by
  refine ⟨by decide, by decide, by decide, by decide⟩

/-- C5 witness: the error classes evaluated at concrete files. -/
theorem C5_loader_error_classes_witness :
    load_annotations true ["Car"] none (some []) = .error .ioError ∧
    load_annotations false ["Car"] none none = .error .ioError ∧
    load_annotations false ["Car"] none (some [⟨"P0:", []⟩]) = .error .unboundLocalError ∧
    load_annotations true ["Car"] (some [badCarRow]) (some []) = .error .valueError ∧
    load_annotations false ["Car"] none (some [⟨"P2:", [NumTok.bad]⟩]) = .error .valueError :=
  C5_loader_error_classes ["Car"] none (some []) (some []) [⟨"P0:", []⟩] badCarRow []
    [NumTok.bad] [] (by decide) (by decide) (by decide) (by decide)

/-- C6: every accepted object of a jittered sample has regression-validity
mask 0, every accepted object of an un-jittered sample has
regression-validity mask 1, and the flip-validity mask is 1 exactly for
accepted objects of samples that were flipped and not jittered. -/
theorem C6_masks (cfg : Config) (data : ℕ → Sample) (idx : ℕ) (d : Draws) (proj : Proj)
    (t : TrainTarget) (h : getitemTrain cfg data idx d proj = .ok t)
    (w : Write) (hw : w ∈ t.trace) :
    w.pay.regMask = (if affineOf cfg d then 0 else 1) ∧
    w.pay.flipMask = (if flippedOf cfg d && !affineOf cfg d then 1 else 0) := by
  unfold getitemTrain at h
  rcases hR : runSrcs proj (flippedOf cfg d) (affineOf cfg d) 0 (srcsOf cfg data idx d)
      (List.replicate cfg.maxObjs zeroPayload, []) with e | st
  · rw [hR] at h; exact absurd h (by simp)
  · rw [hR] at h
    injection h with h
    subst h
    obtain ⟨_, hmem⟩ := runSrcs_ok_mem proj (flippedOf cfg d) (affineOf cfg d)
      (srcsOf cfg data idx d) 0 _ st hR
    rcases hmem w hw with hin | hprops
    · exact absurd hin (List.not_mem_nil w)
    · constructor
      · rw [hprops.2.1]
        cases affineOf cfg d <;> simp
      · rw [hprops.2.2]
        cases affineOf cfg d <;> cases flippedOf cfg d <;> simp

/-- C6 witness: the mask values of the concrete successful run's single
write. -/
theorem C6_masks_witness :
    (Write.mk 0 0 payG).pay.regMask = (if affineOf cfgG dG then 0 else 1) ∧
    (Write.mk 0 0 payG).pay.flipMask =
      (if flippedOf cfgG dG && !affineOf cfgG dG then 1 else 0) :=
  C6_masks cfgG dataG 0 dG projW tG (by decide) ⟨0, 0, payG⟩ (by decide)

/-- C7: a flipped sample is necessarily on the primary (left) camera view,
and the flip rewrites the virtual center's x-coordinate to
`width - center - 1` and the active calibration's principal-point entry
(row 0, column 2, flat index 2) to `width - principal-point - 1`. -/
theorem C7_flip (cfg : Config) (data : ℕ → Sample) (idx : ℕ) (d : Draws)
    (h : flippedOf cfg d = true) :
    useLeftOf cfg d = true ∧
    (centerAfterFlipOf cfg data idx d).1 =
      (data idx).width - (center0Of data idx).1 - 1 ∧
    activePOf cfg data idx d =
      (primaryP cfg data idx d).set 2
        ((data idx).width - entry02 (primaryP cfg data idx d) - 1) := by
  refine ⟨?_, ?_, ?_⟩
  · have h2 := h
    simp only [flippedOf, Bool.and_eq_true] at h2
    exact h2.2
  · simp [centerAfterFlipOf, h, flipCoord]
  · simp [activePOf, h, flipP, flipCoord]

/-- C7 witness: the flip facts evaluated on the concrete flipped run. -/
theorem C7_flip_witness :
    useLeftOf cfgF dF = true ∧
    (centerAfterFlipOf cfgF dataF 0 dF).1 =
      (dataF 0).width - (center0Of dataF 0).1 - 1 ∧
    activePOf cfgF dataF 0 dF =
      (primaryP cfgF dataF 0 dF).set 2
        ((dataF 0).width - entry02 (primaryP cfgF dataF 0 dF) - 1) :=
  C7_flip cfgF dataF 0 dF (by decide)

/-- C8: the flip transform `c ↦ width - c - 1` is an involution — applying
it twice returns the original coordinate, for every width and coordinate. -/
theorem C8_flip_involution (w c : ℚ) : flipCoord w (flipCoord w c) = c := by
  unfold flipCoord
  ring

/-- C9: in every run that returns a target, annotation `j` of source `s`
produces a slot write exactly when its projected keypoint lies strictly
inside (strict inequalities on both axes) the output-grid region assigned
to that source; and the assigned regions are the whole output grid for a
non-mosaic sample, and the left/right column sub-ranges split at
`left_ratio * output_width` for a mosaic-composed one. -/
theorem C9_accept_iff (cfg : Config) (data : ℕ → Sample) (idx : ℕ) (d : Draws)
    (proj : Proj) (t : TrainTarget) (h : getitemTrain cfg data idx d proj = .ok t)
    (s j : ℕ) (src : List Ann × Region × Mat34) (a : Ann)
    (hs : (srcsOf cfg data idx d)[s]? = some src) (hj : src.1[j]? = some a) :
    written t.trace s j = acceptB src.2.1 (objPoint proj (flippedOf cfg d) src.2.2 a) ∧
    (srcsOf cfg data idx d).map (fun x => x.2.1) =
      (if composedOf cfg data idx d then
        [⟨0, d.leftRatio * cfg.outW, 0, cfg.outH⟩,
         ⟨d.leftRatio * cfg.outW, cfg.outW, 0, cfg.outH⟩]
      else [⟨0, cfg.outW, 0, cfg.outH⟩]) := by
  constructor
  · unfold getitemTrain at h
    rcases hR : runSrcs proj (flippedOf cfg d) (affineOf cfg d) 0 (srcsOf cfg data idx d)
        (List.replicate cfg.maxObjs zeroPayload, []) with e | st
    · rw [hR] at h; exact absurd h (by simp)
    · rw [hR] at h
      injection h with h
      subst h
      have hiff := runSrcs_ok_written proj (flippedOf cfg d) (affineOf cfg d)
        (srcsOf cfg data idx d) 0 _ st hR s j
      have hiff2 : written st.2 s j = true ↔
          acceptB src.2.1 (objPoint proj (flippedOf cfg d) src.2.2 a) = true := by
        rw [hiff]
        simp [written, srcWritten, hs, writtenInAnns, hj]
      cases hacc : acceptB src.2.1 (objPoint proj (flippedOf cfg d) src.2.2 a) with
      | true => exact hiff2.mpr hacc
      | false =>
        cases hwr : written st.2 s j with
        | false => rfl
        | true =>
          have hcontra := hiff2.mp hwr
          rw [hacc] at hcontra
          exact absurd hcontra (by simp)
  · cases hc : composedOf cfg data idx d <;>
      simp [srcsOf, hc, leftRegion, rightRegion, fullRegion]

/-- C9 witness: the acceptance law evaluated on the concrete successful
run's only annotation. -/
theorem C9_accept_iff_witness :
    written tG.trace 0 0 =
      acceptB (fullRegion cfgG) (objPoint projW (flippedOf cfgG dG) pG (annOf 2 2 0)) ∧
    (srcsOf cfgG dataG 0 dG).map (fun x => x.2.1) =
      (if composedOf cfgG dataG 0 dG then
        [⟨0, dG.leftRatio * cfgG.outW, 0, cfgG.outH⟩,
         ⟨dG.leftRatio * cfgG.outW, cfgG.outW, 0, cfgG.outH⟩]
      else [⟨0, cfgG.outW, 0, cfgG.outH⟩]) :=
  C9_accept_iff cfgG dataG 0 dG projW tG (by decide) 0 0
    ([annOf 2 2 0], fullRegion cfgG, pG) (annOf 2 2 0) (by decide) (by decide)

/-- C10: the extended 4x4 "P" field of every returned target is built from
the last entry of the per-source matrix list — the mosaic partner's matrix
when the sample was composed, the primary view's (possibly flipped) matrix
otherwise. -/
theorem C10_P_field (cfg : Config) (data : ℕ → Sample) (idx : ℕ) (d : Draws)
    (proj : Proj) (t : TrainTarget) (h : getitemTrain cfg data idx d proj = .ok t) :
    t.outP = extendP (if composedOf cfg data idx d then mosaicPOf cfg data d
                      else activePOf cfg data idx d) := by
  unfold getitemTrain at h
  rcases hR : runSrcs proj (flippedOf cfg d) (affineOf cfg d) 0 (srcsOf cfg data idx d)
      (List.replicate cfg.maxObjs zeroPayload, []) with e | st
  · rw [hR] at h; exact absurd h (by simp)
  · rw [hR] at h
    injection h with h
    subst h
    cases hc : composedOf cfg data idx d <;> simp [pListOf, hc]

/-- C10 witness: the "P" field of the concrete successful run. -/
theorem C10_P_field_witness :
    tG.outP = extendP (if composedOf cfgG dataG 0 dG then mosaicPOf cfgG dataG dG
                       else activePOf cfgG dataG 0 dG) :=
  C10_P_field cfgG dataG 0 dG projW tG (by decide)

end SMOKE
